import Mathlib

/-!
Shallow embedding of the koa middleware helpers in `src/index.js`:
`useReturnValue`, `setErrorResponse`, `logError`, `errorHandler`,
`requestProfiler`.  JavaScript values are modelled by `JSVal` (with `undefined`
for `undefined`); objects are association lists of string keys.  Each
pipeline stage becomes a Lean function from a mutable request context and a
downstream continuation to a `StageResult`: the final context, the trace of
observable calls the stage made, and the failure (if any) that propagates
out of the stage.  Asynchronous `await` points are flattened: a continuation
or handler is a function returning the mutated context together with an
optional thrown failure.
-/

set_option autoImplicit false
set_option linter.unusedVariables false

namespace KoaMiddleware

/-- A JavaScript value, as far as the middleware observes one.  Numbers are
modelled as integers (the code only compares integral status codes; `NaN`
arises only from failed string coercion and is modelled by `toNumber`
returning `none`).  Objects are association lists of string keys. -/
inductive JSVal where
  | undefined : JSVal
  | null : JSVal
  | bool : Bool → JSVal
  | num : Int → JSVal
  | str : String → JSVal
  | obj : List (String × JSVal) → JSVal

/-- JavaScript truthiness: `undefined`, `null`, `false`, `0` and `""` are
falsy, everything else (objects included) is truthy. -/
def truthy : JSVal → Bool
  | .undefined => false
  | .null => false
  | .bool b => b
  | .num n => n != 0
  | .str s => s != ""
  | .obj _ => true

/-- The JavaScript `a || b` operator: `a` if truthy, otherwise `b`. -/
def jsOr (a b : JSVal) : JSVal :=
  if truthy a then a else b

/-- JavaScript `typeof v === 'object'`: true for objects and for `null`. -/
def jsTypeofIsObject : JSVal → Bool
  | .obj _ => true
  | .null => true
  | _ => false

/-- True exactly for object values. -/
def isObjVal : JSVal → Bool
  | .obj _ => true
  | _ => false

/-- True exactly for `undefined` (models `typeof v === 'undefined'`). -/
def JSVal.isUndefined : JSVal → Bool
  | .undefined => true
  | _ => false

/-- Parses a non-empty run of decimal digits, `none` on any other
character. -/
def parseDigits : List Char → Nat → Option Nat
  | [], acc => some acc
  | c :: rest, acc =>
    if c.isDigit then parseDigits rest (acc * 10 + (c.toNat - 48)) else none

/-- `ToNumber` on strings: the empty string coerces to `0`, integral
literals (optionally negated) parse, anything else is `NaN` (`none`).
(Fractional, exponent and whitespace-padded literals are outside the
integral model; no status code in the code or the tests uses them.) -/
def strToNumber (s : String) : Option Int :=
  match s.toList with
  | [] => some 0
  | '-' :: rest =>
    if rest.isEmpty then none else (parseDigits rest 0).map (fun n => -(n : Int))
  | cs => (parseDigits cs 0).map (fun n => (n : Int))

/-- JavaScript `ToNumber` coercion, `none` standing for `NaN`. -/
def toNumber : JSVal → Option Int
  | .undefined => none
  | .null => some 0
  | .bool b => some (if b then 1 else 0)
  | .num n => some n
  | .str s => strToNumber s
  | .obj _ => none

/-- JavaScript `a >= b`: lexicographic when both operands are strings,
otherwise numeric after coercion, and false whenever a coercion yields
`NaN`. -/
def jsGE (a b : JSVal) : Bool :=
  match a, b with
  | .str s, .str t => decide (t ≤ s)
  | _, _ =>
    match toNumber a, toNumber b with
    | some x, some y => decide (y ≤ x)
    | _, _ => false

/-- JavaScript `a < b`, with the same coercion rules as `jsGE`. -/
def jsLT (a b : JSVal) : Bool :=
  match a, b with
  | .str s, .str t => decide (s < t)
  | _, _ =>
    match toNumber a, toNumber b with
    | some x, some y => decide (x < y)
    | _, _ => false

/-- Property lookup on an object's field list (first matching key). -/
def objGet (fs : List (String × JSVal)) (k : String) : JSVal :=
  match fs with
  | [] => .undefined
  | (k', v) :: rest => if k' == k then v else objGet rest k

/-- JavaScript property assignment on an object literal under construction:
an existing key keeps its position and gets the new value, a new key is
appended.  (The keys of a JavaScript object are unique, so updating the
first occurrence is the JavaScript behavior.) -/
def objSet (fs : List (String × JSVal)) (k : String) (v : JSVal) : List (String × JSVal) :=
  match fs with
  | [] => [(k, v)]
  | (k', w) :: rest => if k' == k then (k, v) :: rest else (k', w) :: objSet rest k v

/-- Property access `v.k` on an arbitrary value: objects look the key up,
every other value yields `undefined`.  (Only reached on non-null values in
the embedded code.) -/
def propGet (v : JSVal) (k : String) : JSVal :=
  match v with
  | .obj fs => objGet fs k
  | _ => .undefined

/-- The fields contributed by a spread `{...v}`: an object's own fields, a
string's indexed characters, and nothing for the primitives. -/
def spreadFields : JSVal → List (String × JSVal)
  | .obj fs => fs
  | .str s => s.toList.enum.map (fun p => (toString p.1, .str (String.singleton p.2)))
  | _ => []

/-- The error value caught by the middleware, with the fields the code
reads; a field the thrown object lacks reads as `undefined`. -/
structure Failure where
  message : JSVal
  statusCode : JSVal
  status : JSVal
  code : JSVal
  error : JSVal
  body : JSVal
  stack : JSVal

/-- The per-request `state` sub-record of the Koa context, as far as the
embedded code reads it. -/
structure CtxState where
  traceId : JSVal

/-- The mutable Koa request context: the parts of it the embedded stages
read or write. -/
structure Ctx where
  status : JSVal
  body : JSVal
  state : CtxState

/-- Logger levels of the `ctx.state.logger` capability. -/
inductive LogLevel where
  | trace | debug | info | warn | error
  deriving DecidableEq

/-- One call made on a logger: the level and the argument list. -/
structure LogCall where
  level : LogLevel
  args : List JSVal

/-- An observable call a stage makes during one run. -/
inductive Event where
  | log : LogCall → Event
  | nextCalled : Event
  | instrCalled : Failure → Ctx → JSVal → JSVal → Event
  | requestStarted : Event
  | requestFinished : Event
  | requestSucceeded : Event
  | requestFailed : Event

/-- The outcome of running one pipeline stage: the context as the stage
leaves it, the ordered trace of observable calls, and the failure (if any)
that propagates out of the stage to its caller. -/
structure StageResult where
  ctx : Ctx
  events : List Event
  thrown : Option Failure

/-- A downstream continuation (`next`): it may mutate the context and may
throw. -/
def Next : Type := Ctx → Ctx × Option Failure

/-! ### `useReturnValue` (src/index.js lines 18-29) -/

/-- The stage built by `useReturnValue(fn)`.  The handler `fn` may mutate
the context and either return a value or throw.  A defined return value
yields `status = 200` and `body = result`; `undefined` yields
`status = 204` with the body untouched; then `next()` is called. -/
def useReturnValueRun (fn : Ctx → Ctx × Except Failure JSVal) (next : Next) (ctx : Ctx) :
    StageResult :=
  let fr := fn ctx
  match fr.2 with
  | .error e => ⟨fr.1, [], some e⟩
  | .ok v =>
    let c1 : Ctx :=
      if v.isUndefined then
        { fr.1 with status := .num 204 }
      else
        { fr.1 with status := .num 200, body := v }
    let nr := next c1
    ⟨nr.1, [.nextCalled], nr.2⟩

/-! ### `setErrorResponse` (src/index.js lines 31-44) -/

/-- The message resolution of `setErrorResponse`:
`e.error || e.body || e.message || 'Internal server error'`. -/
def resolvedMessage (e : Failure) : JSVal :=
  jsOr e.error (jsOr e.body (jsOr e.message (.str "Internal server error")))

/-- `setErrorResponse(e, ctx, logger)`: logs the message and stack on the
supplied (or disabled) logger, sets
`ctx.status = e.statusCode || e.status || e.code || 500`, and sets
`ctx.body` to an object with the single key `message`, unwrapping one level
of nesting when the resolved message is an object with a truthy `message`
property.  Returns the mutated context and the calls made on the logger. -/
def setErrorResponse (e : Failure) (ctx : Ctx) : Ctx × List LogCall :=
  let calls : List LogCall := [⟨.error, [e.message]⟩, ⟨.debug, [e.stack]⟩]
  let message := resolvedMessage e
  let status := jsOr e.statusCode (jsOr e.status (jsOr e.code (.num 500)))
  let bodyMessage :=
    if jsTypeofIsObject message && truthy (propGet message "message") then
      propGet message "message"
    else
      message
  ({ ctx with status := status, body := .obj [("message", bodyMessage)] }, calls)

/-! ### `logError` (src/index.js lines 46-54) -/

/-- The default instrumentation `logError(e, ctx, statusCode, errorCode)`:
one error-level entry with the structured fields and the message, and for
`statusCode >= 500` a second error-level entry with the stack.  Returns the
calls made on `ctx.state.logger`. -/
def logError (e : Failure) (ctx : Ctx) (statusCode errorCode : JSVal) : List LogCall :=
  ⟨.error, [.obj [("errorCode", errorCode), ("statusCode", statusCode)], e.message]⟩ ::
    (if jsGE statusCode (.num 500) then [⟨.error, [e.stack]⟩] else [])

/-! ### `errorHandler` (src/index.js lines 56-82) -/

/-- An instrumentation callback as the error stage sees it: it observes the
failure, the (already mutated) context, the status and the error code, and
returns the logger calls it makes plus the failure it may itself throw.  (It
is an observer: the stage neither reads a context back from it nor catches
its failure.) -/
def Instr : Type := Failure → Ctx → JSVal → JSVal → List LogCall × Option Failure

/-- The default `getTraceId` dependency: `ctx => ctx.state.traceId`. -/
def defaultGetTraceId (ctx : Ctx) : JSVal :=
  ctx.state.traceId

/-- The default `instrumentation` dependency: `logError`, which never
throws. -/
def defaultInstrumentation : Instr :=
  fun e ctx statusCode errorCode => (logError e ctx statusCode errorCode, none)

/-- The error-response body `{...e.body, message, errorCode, traceId}` of
the error stage: the spread of `e.body` with the three named fields
assigned on top. -/
def errorBodyFields (e : Failure) (message errorCode traceId : JSVal) :
    List (String × JSVal) :=
  objSet (objSet (objSet (spreadFields e.body) "message" message) "errorCode" errorCode)
    "traceId" traceId

/-- The stage built by `errorHandler({getTraceId, instrumentation})`: runs
`next`, and on a thrown failure computes
`message = e.message || 'Internal server error'`,
`status = e.statusCode || 500`, `errorCode = e.code || 0`,
`traceId = getTraceId(ctx)`, sets `ctx.status` and
`ctx.body = {...e.body, message, errorCode, traceId}`, then awaits the
instrumentation; a failure thrown by the instrumentation itself is not
caught. -/
def errorHandlerRun (getTraceId : Ctx → JSVal) (instr : Instr) (next : Next) (ctx : Ctx) :
    StageResult :=
  let r := next ctx
  match r.2 with
  | none => ⟨r.1, [.nextCalled], none⟩
  | some e =>
    let message := jsOr e.message (.str "Internal server error")
    let status := jsOr e.statusCode (.num 500)
    let errorCode := jsOr e.code (.num 0)
    let traceId := getTraceId r.1
    let ctx2 : Ctx :=
      { r.1 with status := status, body := .obj (errorBodyFields e message errorCode traceId) }
    let ir := instr e ctx2 status errorCode
    ⟨ctx2, [.nextCalled, .instrCalled e ctx2 status errorCode] ++ ir.1.map Event.log, ir.2⟩

/-- `errorHandler()` with both dependencies defaulted. -/
def errorHandler (next : Next) (ctx : Ctx) : StageResult :=
  errorHandlerRun defaultGetTraceId defaultInstrumentation next ctx

/-! ### `requestProfiler` (src/index.js lines 84-140) -/

/-- The stage built by `requestProfiler(...)`, generic over the four
callback dependencies (each may mutate the context): calls
`requestStarted`, then `next`; a failure from `next` propagates at once;
otherwise `requestFinished` runs and the outcome is classified by
`ctx.status >= 400` (with JavaScript comparison semantics) into
`requestFailed` or `requestSucceeded`. -/
def requestProfilerRun (started finished succeeded failed : Ctx → Ctx) (next : Next)
    (ctx : Ctx) : StageResult :=
  let c1 := started ctx
  let r := next c1
  match r.2 with
  | some e => ⟨r.1, [.requestStarted, .nextCalled], some e⟩
  | none =>
    let c3 := finished r.1
    if jsGE c3.status (.num 400) then
      ⟨failed c3, [.requestStarted, .nextCalled, .requestFinished, .requestFailed], none⟩
    else
      ⟨succeeded c3, [.requestStarted, .nextCalled, .requestFinished, .requestSucceeded], none⟩

/-! ### Helper predicates and sample values -/

/-- The error-level calls among a list of logger calls. -/
def errorLevelCalls (calls : List LogCall) : List LogCall :=
  calls.filter (fun c => c.level == .error)

/-- Recognizes the instrumentation-invocation event. -/
def isInstrEvent : Event → Bool
  | .instrCalled _ _ _ _ => true
  | _ => false

/-- Recognizes the `requestFailed` callback invocation. -/
def isFailedEv : Event → Bool
  | .requestFailed => true
  | _ => false

/-- Recognizes the `requestSucceeded` callback invocation. -/
def isSucceededEv : Event → Bool
  | .requestSucceeded => true
  | _ => false

/-- A failure value none of whose fields are set. -/
def noFields : Failure :=
  ⟨.undefined, .undefined, .undefined, .undefined, .undefined, .undefined, .undefined⟩

/-- A sample context with a trace id in its state and nothing else set. -/
def sampleCtx : Ctx :=
  ⟨.undefined, .undefined, ⟨.str "t1"⟩⟩

/-- A continuation that throws the given failure without mutating the
context. -/
def throwingNext (e : Failure) : Next :=
  fun c => (c, some e)

/-- A continuation that succeeds without mutating the context. -/
def okNext : Next :=
  fun c => (c, none)

/-- The identity callback, for instantiating profiler dependencies. -/
def idCb : Ctx → Ctx :=
  fun c => c

/-- A callback that sets the status to the given number. -/
def setStatus (n : Int) : Ctx → Ctx :=
  fun c => { c with status := .num n }

/-! ### Association-list lookup lemmas -/

theorem objGet_objSet_self (fs : List (String × JSVal)) (k : String) (v : JSVal) :
    objGet (objSet fs k v) k = v := by
  induction fs with
  | nil => simp [objSet, objGet]
  | cons p rest ih =>
    by_cases hk : p.1 = k
    · simp [objSet, objGet, hk]
    · simp [objSet, objGet, hk, ih]

theorem objGet_objSet_of_ne (fs : List (String × JSVal)) (k : String) (v : JSVal)
    (k' : String) (h : k' ≠ k) : objGet (objSet fs k v) k' = objGet fs k' := by
  induction fs with
  | nil => simp [objSet, objGet, Ne.symm h]
  | cons p rest ih =>
    by_cases hk : p.1 = k
    · simp [objSet, objGet, hk, Ne.symm h]
    · by_cases hk2 : p.1 = k'
      · simp [objSet, objGet, hk, hk2, h]
      · simp [objSet, objGet, hk, hk2, ih]

theorem filter_isInstrEvent_map_log (l : List LogCall) :
    (l.map Event.log).filter isInstrEvent = [] := by
  induction l with
  | nil => rfl
  | cons c rest ih => simp [List.filter, isInstrEvent, ih]

/-! ### Claim C1 -/

/-- Claim C1: for every failure `e` thrown by the downstream continuation,
the `errorHandler` stage (with default dependencies) sets `ctx.status` to
`e.statusCode` if truthy else `500`, and sets `ctx.body` to the merge of
`e.body`'s fields with `message = e.message` if truthy else
`'Internal server error'`, `errorCode = e.code` if truthy else `0`, and
`traceId = ctx.state.traceId` (the default `getTraceId`); on any key
collision the `message`, `errorCode` and `traceId` fields override the
fields coming from `e.body`. -/
theorem C1_errorHandler_envelope (next : Next) (ctx : Ctx) (e : Failure)
    (h : (next ctx).2 = some e) :
    (errorHandler next ctx).ctx.status = jsOr e.statusCode (.num 500) ∧
    ∃ fs, (errorHandler next ctx).ctx.body = .obj fs ∧
      objGet fs "message" = jsOr e.message (.str "Internal server error") ∧
      objGet fs "errorCode" = jsOr e.code (.num 0) ∧
      objGet fs "traceId" = (next ctx).1.state.traceId ∧
      ∀ k, k ≠ "message" → k ≠ "errorCode" → k ≠ "traceId" →
        objGet fs k = objGet (spreadFields e.body) k := by
  refine ⟨?_, errorBodyFields e (jsOr e.message (.str "Internal server error"))
      (jsOr e.code (.num 0)) ((next ctx).1.state.traceId), ?_, ?_, ?_, ?_, ?_⟩
  · simp [errorHandler, errorHandlerRun, h]
  · simp [errorHandler, errorHandlerRun, h, defaultGetTraceId]
  · simp [errorBodyFields, objGet_objSet_of_ne, objGet_objSet_self]
  · simp [errorBodyFields, objGet_objSet_of_ne, objGet_objSet_self]
  · simp [errorBodyFields, objGet_objSet_of_ne, objGet_objSet_self]
  · intro k h1 h2 h3
    simp [errorBodyFields, objGet_objSet_of_ne, h1, h2, h3]

/-- Failure used to instantiate claim C1: truthy `statusCode`, `code` and
`message`, and a `body` carrying both an extra field and a colliding
`message` field. -/
def eC1 : Failure :=
  { noFields with
    message := .str "boom"
    statusCode := .num 403
    code := .num 7
    body := .obj [("extra", .num 1), ("message", .str "shadowed")] }

/-- Witness for claim C1 at the concrete failure `eC1` and context
`sampleCtx`. -/
theorem C1_errorHandler_envelope_witness :
    ((throwingNext eC1 sampleCtx).2 = some eC1) ∧
    ((errorHandler (throwingNext eC1) sampleCtx).ctx.status = jsOr eC1.statusCode (.num 500) ∧
    ∃ fs, (errorHandler (throwingNext eC1) sampleCtx).ctx.body = .obj fs ∧
      objGet fs "message" = jsOr eC1.message (.str "Internal server error") ∧
      objGet fs "errorCode" = jsOr eC1.code (.num 0) ∧
      objGet fs "traceId" = (throwingNext eC1 sampleCtx).1.state.traceId ∧
      ∀ k, k ≠ "message" → k ≠ "errorCode" → k ≠ "traceId" →
        objGet fs k = objGet (spreadFields eC1.body) k) :=
  ⟨rfl, C1_errorHandler_envelope (throwingNext eC1) sampleCtx eC1 rfl⟩

/-! ### Claim C3 -/

/-- Claim C3: status resolution differs between the two error helpers:
`setErrorResponse` sets `ctx.status` to the first truthy of `e.statusCode`,
`e.status`, `e.code`, else `500`, while the `errorHandler` stage consults
only `e.statusCode`, else `500`; hence for every failure with falsy
`statusCode` and truthy `status`, `errorHandler` yields status `500` while
`setErrorResponse` yields `e.status`. -/
theorem C3_status_asymmetry (e : Failure) (ctx : Ctx) (next : Next)
    (hn : (next ctx).2 = some e)
    (h1 : truthy e.statusCode = false) (h2 : truthy e.status = true) :
    (setErrorResponse e ctx).1.status =
      jsOr e.statusCode (jsOr e.status (jsOr e.code (.num 500))) ∧
    (errorHandler next ctx).ctx.status = jsOr e.statusCode (.num 500) ∧
    (errorHandler next ctx).ctx.status = .num 500 ∧
    (setErrorResponse e ctx).1.status = e.status := by
  refine ⟨rfl, ?_, ?_, ?_⟩
  · simp [errorHandler, errorHandlerRun, hn]
  · simp [errorHandler, errorHandlerRun, hn, jsOr, h1]
  · simp [setErrorResponse, jsOr, h1, h2]

/-- Failure used to instantiate claim C3: falsy `statusCode`, truthy
`status`. -/
def eC3 : Failure :=
  { noFields with status := .num 418 }

/-- Witness for claim C3 at the concrete failure `eC3` (no `statusCode`,
`status = 418`) and context `sampleCtx`. -/
theorem C3_status_asymmetry_witness :
    ((throwingNext eC3 sampleCtx).2 = some eC3) ∧
    truthy eC3.statusCode = false ∧ truthy eC3.status = true ∧
    ((setErrorResponse eC3 sampleCtx).1.status =
      jsOr eC3.statusCode (jsOr eC3.status (jsOr eC3.code (.num 500))) ∧
    (errorHandler (throwingNext eC3) sampleCtx).ctx.status = jsOr eC3.statusCode (.num 500) ∧
    (errorHandler (throwingNext eC3) sampleCtx).ctx.status = .num 500 ∧
    (setErrorResponse eC3 sampleCtx).1.status = eC3.status) :=
  ⟨rfl, rfl, rfl, C3_status_asymmetry eC3 sampleCtx (throwingNext eC3) rfl rfl rfl⟩

/-! ### Claim C2 -/

/-- Failure whose `error` field is an object without a `message` field. -/
def eObjNoMsg : Failure :=
  { noFields with error := .obj [("foo", .num 1)] }

/-- Failure whose `error` field is an object whose `message` field is the
empty string. -/
def eEmptyMsg : Failure :=
  { noFields with error := .obj [("message", .str "")] }

/-- Counterexample to claim C2: the `message` field of the body produced by
`setErrorResponse` CAN be an object.  With `e.error = \x7bfoo: 1\x7d` the
resolved message is that object, it has no `message` field, so the body's
`message` is the object itself; and with `e.error = \x7bmessage: ''\x7d`
the nested `message` field is falsy, so it is not unwrapped either and the
outer object appears. -/
theorem C2_message_can_be_object :
    propGet (setErrorResponse eObjNoMsg sampleCtx).1.body "message" = .obj [("foo", .num 1)] ∧
    isObjVal (propGet (setErrorResponse eObjNoMsg sampleCtx).1.body "message") = true ∧
    propGet (setErrorResponse eEmptyMsg sampleCtx).1.body "message" =
      .obj [("message", .str "")] ∧
    isObjVal (propGet (setErrorResponse eEmptyMsg sampleCtx).1.body "message") = true :=
  ⟨rfl, rfl, rfl, rfl⟩

/-- Claim C2 (amended): the body `setErrorResponse` produces has the single
key `message`, whose value is the resolved message with exactly one level
of unwrapping: when the resolved message is an object with a truthy
`message` field, that nested field appears as the body's `message`;
otherwise the resolved message itself appears — and it may be an object. -/
theorem C2_message_unwrap (e : Failure) (ctx : Ctx) :
    (setErrorResponse e ctx).1.body =
      .obj [("message",
        if jsTypeofIsObject (resolvedMessage e) && truthy (propGet (resolvedMessage e) "message")
        then propGet (resolvedMessage e) "message"
        else resolvedMessage e)] := by
  rfl

/-! ### Claim C4 -/

/-- Counterexample to claim C4: with `e.error = \x7bmessage: ''\x7d` the
resolved message has a `.message` string field (the empty string), yet the
body's `message` is the outer object, not that inner string: the code
unwraps only a truthy nested `message`. -/
theorem C4_empty_inner_message_not_unwrapped :
    resolvedMessage eEmptyMsg = .obj [("message", .str "")] ∧
    objGet [("message", .str "")] "message" = .str "" ∧
    propGet (setErrorResponse eEmptyMsg sampleCtx).1.body "message" =
      .obj [("message", .str "")] :=
  ⟨rfl, rfl, rfl⟩

/-- Claim C4 (amended): `setErrorResponse` resolves the message as the
first truthy of `e.error`, `e.body`, `e.message`, else
`'Internal server error'`, and sets `ctx.body` to an object whose only key
is `message`; if the resolved message itself has a truthy (non-empty)
`.message` string field, the body's `message` is only that inner string,
never the outer object. -/
theorem C4_message_resolution (e : Failure) (ctx : Ctx) (fs : List (String × JSVal))
    (s : String) (h1 : resolvedMessage e = .obj fs) (h2 : objGet fs "message" = .str s)
    (h3 : s ≠ "") :
    (setErrorResponse e ctx).1.body = .obj [("message", .str s)] ∧
    resolvedMessage e = jsOr e.error (jsOr e.body (jsOr e.message (.str "Internal server error"))) := by
  refine ⟨?_, rfl⟩
  have hm : propGet (resolvedMessage e) "message" = .str s := by
    simp [h1, propGet, h2]
  simp [setErrorResponse, h1, propGet, h2, jsTypeofIsObject, truthy, h3]

/-- Failure used to instantiate the amended claim C4: `e.error` an object
with a non-empty `message` string field. -/
def eC4 : Failure :=
  { noFields with error := .obj [("message", .str "inner"), ("other", .num 2)] }

/-- Witness for the amended claim C4 at `eC4`: the inner string `inner` is
unwrapped. -/
theorem C4_message_resolution_witness :
    (resolvedMessage eC4 = .obj [("message", .str "inner"), ("other", .num 2)]) ∧
    (objGet [("message", .str "inner"), ("other", .num 2)] "message" = .str "inner") ∧
    ((setErrorResponse eC4 sampleCtx).1.body = .obj [("message", .str "inner")] ∧
     resolvedMessage eC4 =
       jsOr eC4.error (jsOr eC4.body (jsOr eC4.message (.str "Internal server error")))) :=
  ⟨rfl, rfl,
    C4_message_resolution eC4 sampleCtx [("message", .str "inner"), ("other", .num 2)]
      "inner" rfl rfl (by decide)⟩

/-! ### Claim C5 -/

/-- Claim C5: the `errorHandler` stage fully absorbs every failure thrown
by the downstream continuation — what propagates out of the stage is
exactly what the instrumentation throws (nothing, for an instrumentation
that does not throw) — it sets `ctx.status` and `ctx.body` before invoking
the instrumentation exactly once with arguments
`(failure, ctx, status, errorCode)`, and if the instrumentation call itself
fails, that failure propagates outward while `ctx.status` and `ctx.body`
remain set per the envelope rules. -/
theorem C5_errorHandler_absorbs (getTraceId : Ctx → JSVal) (instr : Instr) (next : Next)
    (ctx : Ctx) (e : Failure) (h : (next ctx).2 = some e) :
    ∃ ctx2,
      (errorHandlerRun getTraceId instr next ctx).ctx = ctx2 ∧
      ctx2.status = jsOr e.statusCode (.num 500) ∧
      ctx2.body = .obj (errorBodyFields e (jsOr e.message (.str "Internal server error"))
        (jsOr e.code (.num 0)) (getTraceId (next ctx).1)) ∧
      (errorHandlerRun getTraceId instr next ctx).events.filter isInstrEvent =
        [.instrCalled e ctx2 (jsOr e.statusCode (.num 500)) (jsOr e.code (.num 0))] ∧
      (errorHandlerRun getTraceId instr next ctx).thrown =
        (instr e ctx2 (jsOr e.statusCode (.num 500)) (jsOr e.code (.num 0))).2 ∧
      ((instr e ctx2 (jsOr e.statusCode (.num 500)) (jsOr e.code (.num 0))).2 = none →
        (errorHandlerRun getTraceId instr next ctx).thrown = none) := by
  refine ⟨{ (next ctx).1 with
      status := jsOr e.statusCode (.num 500),
      body := .obj (errorBodyFields e (jsOr e.message (.str "Internal server error"))
        (jsOr e.code (.num 0)) (getTraceId (next ctx).1)) }, ?_, rfl, rfl, ?_, ?_, ?_⟩
  · simp [errorHandlerRun, h]
  · simp [errorHandlerRun, h, List.filter, isInstrEvent, filter_isInstrEvent_map_log]
  · simp [errorHandlerRun, h]
  · intro hnone
    simp [errorHandlerRun, h, hnone]

/-- Failure used to instantiate claim C5. -/
def eC5 : Failure :=
  { noFields with message := .str "oops", statusCode := .num 502 }

/-- An instrumentation that itself throws, to instantiate the sharp-edge
half of claim C5. -/
def instrThrow : Instr :=
  fun _ _ _ _ => ([], some noFields)

/-- Witness for claim C5 at the concrete failure `eC5`, a throwing
instrumentation and context `sampleCtx`. -/
theorem C5_errorHandler_absorbs_witness :
    ((throwingNext eC5 sampleCtx).2 = some eC5) ∧
    (∃ ctx2,
      (errorHandlerRun defaultGetTraceId instrThrow (throwingNext eC5) sampleCtx).ctx = ctx2 ∧
      ctx2.status = jsOr eC5.statusCode (.num 500) ∧
      ctx2.body = .obj (errorBodyFields eC5 (jsOr eC5.message (.str "Internal server error"))
        (jsOr eC5.code (.num 0)) (defaultGetTraceId (throwingNext eC5 sampleCtx).1)) ∧
      (errorHandlerRun defaultGetTraceId instrThrow (throwingNext eC5) sampleCtx).events.filter
          isInstrEvent =
        [.instrCalled eC5 ctx2 (jsOr eC5.statusCode (.num 500)) (jsOr eC5.code (.num 0))] ∧
      (errorHandlerRun defaultGetTraceId instrThrow (throwingNext eC5) sampleCtx).thrown =
        (instrThrow eC5 ctx2 (jsOr eC5.statusCode (.num 500)) (jsOr eC5.code (.num 0))).2 ∧
      ((instrThrow eC5 ctx2 (jsOr eC5.statusCode (.num 500)) (jsOr eC5.code (.num 0))).2 = none →
        (errorHandlerRun defaultGetTraceId instrThrow (throwingNext eC5) sampleCtx).thrown =
          none)) :=
  ⟨rfl, C5_errorHandler_absorbs defaultGetTraceId instrThrow (throwingNext eC5) sampleCtx
    eC5 rfl⟩

/-! ### Claim C6 -/

/-- Claim C6: for every failure with a non-empty stack, the default
instrumentation `logError` makes exactly one error-level log call when
`statusCode < 500` (with the structured fields `errorCode`/`statusCode`
and the failure's message), and exactly two error-level calls when
`statusCode >= 500`, the second carrying the failure's stack trace. -/
theorem C6_logError_counts (e : Failure) (ctx : Ctx) (n : Int) (errorCode : JSVal)
    (s : String) (hs : e.stack = .str s) (hne : s ≠ "") :
    (n < 500 →
      errorLevelCalls (logError e ctx (.num n) errorCode) =
        [⟨.error, [.obj [("errorCode", errorCode), ("statusCode", .num n)], e.message]⟩]) ∧
    (500 ≤ n →
      errorLevelCalls (logError e ctx (.num n) errorCode) =
        [⟨.error, [.obj [("errorCode", errorCode), ("statusCode", .num n)], e.message]⟩,
         ⟨.error, [.str s]⟩]) := by
  constructor
  · intro hlt
    have hge : jsGE (.num n) (.num 500) = false := by
      simp [jsGE, toNumber]
      omega
    simp [logError, errorLevelCalls, hge, List.filter]
  · intro hge500
    have hge : jsGE (.num n) (.num 500) = true := by
      simp [jsGE, toNumber]
      omega
    simp [logError, errorLevelCalls, hge, List.filter, hs]

/-- Failure used to instantiate claim C6: a message and a non-empty stack. -/
def eC6 : Failure :=
  { noFields with message := .str "boom", stack := .str "stack-text" }

/-- Witness for claim C6 at `eC6`, once below and once above the 500
threshold. -/
theorem C6_logError_counts_witness :
    (eC6.stack = .str "stack-text") ∧ ("stack-text" ≠ "") ∧
    errorLevelCalls (logError eC6 sampleCtx (.num 403) (.num 7)) =
      [⟨.error, [.obj [("errorCode", .num 7), ("statusCode", .num 403)], eC6.message]⟩] ∧
    errorLevelCalls (logError eC6 sampleCtx (.num 503) (.num 7)) =
      [⟨.error, [.obj [("errorCode", .num 7), ("statusCode", .num 503)], eC6.message]⟩,
       ⟨.error, [.str "stack-text"]⟩] :=
  ⟨rfl, by decide,
    (C6_logError_counts eC6 sampleCtx 403 (.num 7) "stack-text" rfl (by decide)).1 (by omega),
    (C6_logError_counts eC6 sampleCtx 503 (.num 7) "stack-text" rfl (by decide)).2 (by omega)⟩

/-! ### Claim C7 -/

/-- Claim C7: for every run of the `requestProfiler` stage in which the
downstream continuation succeeds (and the final status is a number, per the
data model), exactly one of `requestFailed` / `requestSucceeded` is
invoked, after `requestFinished`: `requestFailed` fires iff the final
`ctx.status >= 400`, and `requestSucceeded` fires iff the final
`ctx.status < 400`. -/
theorem C7_profiler_outcome (started finished succeeded failed : Ctx → Ctx) (next : Next)
    (ctx c2 : Ctx) (n : Int) (h : next (started ctx) = (c2, none))
    (hs : (finished c2).status = .num n) :
    (requestProfilerRun started finished succeeded failed next ctx).events =
      [.requestStarted, .nextCalled, .requestFinished,
        if 400 ≤ n then .requestFailed else .requestSucceeded] ∧
    ((requestProfilerRun started finished succeeded failed next ctx).events.countP isFailedEv =
      if 400 ≤ n then 1 else 0) ∧
    ((requestProfilerRun started finished succeeded failed next ctx).events.countP
        isSucceededEv = if n < 400 then 1 else 0) := by
  have hge : jsGE (finished c2).status (.num 400) = decide (400 ≤ n) := by
    simp [hs, jsGE, toNumber]
  by_cases hc : 400 ≤ n
  · have hcn : ¬n < 400 := by omega
    simp [requestProfilerRun, h, hge, hc, hcn, List.countP, List.countP.go, isFailedEv,
      isSucceededEv]
  · have hcn : n < 400 := by omega
    simp [requestProfilerRun, h, hge, hc, hcn, List.countP, List.countP.go, isFailedEv,
      isSucceededEv]

/-- Witness for claim C7: identity callbacks except `requestFinished`,
which sets status `503`; the failed branch fires. -/
theorem C7_profiler_outcome_witness :
    (okNext (idCb sampleCtx) = (sampleCtx, none)) ∧
    ((setStatus 503 sampleCtx).status = .num 503) ∧
    ((requestProfilerRun idCb (setStatus 503) idCb idCb okNext sampleCtx).events =
      [.requestStarted, .nextCalled, .requestFinished,
        if 400 ≤ (503 : Int) then .requestFailed else .requestSucceeded] ∧
    ((requestProfilerRun idCb (setStatus 503) idCb idCb okNext sampleCtx).events.countP
        isFailedEv = if 400 ≤ (503 : Int) then 1 else 0) ∧
    ((requestProfilerRun idCb (setStatus 503) idCb idCb okNext sampleCtx).events.countP
        isSucceededEv = if (503 : Int) < 400 then 1 else 0)) :=
  ⟨rfl, rfl, C7_profiler_outcome idCb (setStatus 503) idCb idCb okNext sampleCtx
    sampleCtx 503 rfl rfl⟩

/-! ### Claim C8 -/

/-- Claim C8: if the downstream continuation throws inside the
`requestProfiler` stage, the failure propagates out of the stage unmodified
and neither `requestFinished` nor `requestFailed` nor `requestSucceeded` is
invoked; `requestStarted` has already run by that point. -/
theorem C8_profiler_propagates (started finished succeeded failed : Ctx → Ctx) (next : Next)
    (ctx c2 : Ctx) (e : Failure) (h : next (started ctx) = (c2, some e)) :
    requestProfilerRun started finished succeeded failed next ctx =
      ⟨c2, [.requestStarted, .nextCalled], some e⟩ := by
  simp [requestProfilerRun, h]

/-- Failure used to instantiate claim C8. -/
def eC8 : Failure :=
  { noFields with message := .str "downstream blew up" }

/-- Witness for claim C8 at a continuation that throws `eC8`. -/
theorem C8_profiler_propagates_witness :
    (throwingNext eC8 (idCb sampleCtx) = (sampleCtx, some eC8)) ∧
    requestProfilerRun idCb idCb idCb idCb (throwingNext eC8) sampleCtx =
      ⟨sampleCtx, [.requestStarted, .nextCalled], some eC8⟩ :=
  ⟨rfl, C8_profiler_propagates idCb idCb idCb idCb (throwingNext eC8) sampleCtx sampleCtx
    eC8 rfl⟩

/-! ### Claim C9 -/

/-- Claim C9: for every handler `fn`, the `useReturnValue` stage awaits
`fn(ctx)`; if the result is `undefined` it sets `ctx.status = 204` and
leaves `ctx.body` untouched, otherwise it sets `ctx.status = 200` and
`ctx.body` to the result; in both success cases it then calls the
downstream continuation exactly once, with exactly that context; and a
failure from `fn` propagates unmodified, without calling `next`. -/
theorem C9_useReturnValue (fn : Ctx → Ctx × Except Failure JSVal) (next : Next) (ctx : Ctx) :
    (∀ c1 e, fn ctx = (c1, .error e) →
      useReturnValueRun fn next ctx = ⟨c1, [], some e⟩) ∧
    (∀ c1, fn ctx = (c1, .ok .undefined) →
      useReturnValueRun fn next ctx =
        ⟨(next { c1 with status := .num 204 }).1, [.nextCalled],
          (next { c1 with status := .num 204 }).2⟩ ∧
      ({ c1 with status := JSVal.num 204 } : Ctx).body = c1.body) ∧
    (∀ c1 v, fn ctx = (c1, .ok v) → v.isUndefined = false →
      useReturnValueRun fn next ctx =
        ⟨(next { c1 with status := .num 200, body := v }).1, [.nextCalled],
          (next { c1 with status := .num 200, body := v }).2⟩) := by
  refine ⟨?_, ?_, ?_⟩
  · intro c1 e hf
    simp [useReturnValueRun, hf]
  · intro c1 hf
    refine ⟨?_, rfl⟩
    simp [useReturnValueRun, hf, JSVal.isUndefined]
  · intro c1 v hf hv
    simp [useReturnValueRun, hf, hv]

/-- A handler that throws. -/
def fnErr : Ctx → Ctx × Except Failure JSVal :=
  fun c => (c, .error eC8)

/-- A handler that returns `undefined`. -/
def fnUndef : Ctx → Ctx × Except Failure JSVal :=
  fun c => (c, .ok .undefined)

/-- A handler that returns a string. -/
def fnVal : Ctx → Ctx × Except Failure JSVal :=
  fun c => (c, .ok (.str "text response"))

/-- Witness for claim C9, once per branch: a throwing handler, an
`undefined`-returning handler and a value-returning handler. -/
theorem C9_useReturnValue_witness :
    (fnErr sampleCtx = (sampleCtx, .error eC8)) ∧
    useReturnValueRun fnErr okNext sampleCtx = ⟨sampleCtx, [], some eC8⟩ ∧
    (fnUndef sampleCtx = (sampleCtx, .ok .undefined)) ∧
    (useReturnValueRun fnUndef okNext sampleCtx =
      ⟨(okNext { sampleCtx with status := .num 204 }).1, [.nextCalled],
        (okNext { sampleCtx with status := .num 204 }).2⟩ ∧
      ({ sampleCtx with status := JSVal.num 204 } : Ctx).body = sampleCtx.body) ∧
    (fnVal sampleCtx = (sampleCtx, .ok (.str "text response"))) ∧
    useReturnValueRun fnVal okNext sampleCtx =
      ⟨(okNext { sampleCtx with status := .num 200, body := .str "text response" }).1,
        [.nextCalled],
        (okNext { sampleCtx with status := .num 200, body := .str "text response" }).2⟩ :=
  ⟨rfl, (C9_useReturnValue fnErr okNext sampleCtx).1 sampleCtx eC8 rfl,
    rfl, (C9_useReturnValue fnUndef okNext sampleCtx).2.1 sampleCtx rfl,
    rfl, (C9_useReturnValue fnVal okNext sampleCtx).2.2 sampleCtx (.str "text response")
      rfl rfl⟩

/-! ### Claim C10 -/

/-- Claim C10: in the `requestProfiler` outcome classification, success is
the default branch: whenever the JavaScript comparison
`ctx.status >= 400` does not hold on the final status — including an unset
(`undefined`) or non-numeric status, for which both `>= 400` and `< 400`
are false — `requestSucceeded` fires and `requestFailed` does not. -/
theorem C10_success_default (started finished succeeded failed : Ctx → Ctx) (next : Next)
    (ctx c2 : Ctx) (h : next (started ctx) = (c2, none))
    (hge : jsGE (finished c2).status (.num 400) = false) :
    (requestProfilerRun started finished succeeded failed next ctx).events =
      [.requestStarted, .nextCalled, .requestFinished, .requestSucceeded] ∧
    ((requestProfilerRun started finished succeeded failed next ctx).events.countP
      isFailedEv = 0) ∧
    jsGE .undefined (.num 400) = false ∧ jsLT .undefined (.num 400) = false ∧
    jsGE (.str "no-status") (.num 400) = false ∧ jsLT (.str "no-status") (.num 400) = false := by
  refine ⟨?_, ?_, rfl, rfl, ?_, ?_⟩
  · simp [requestProfilerRun, h, hge]
  · simp [requestProfilerRun, h, hge, List.countP, List.countP.go, isFailedEv]
  · rfl
  · rfl

/-- Witness for claim C10: all callbacks are the identity, the context
never receives a status, so the final status is `undefined` and the success
branch fires. -/
theorem C10_success_default_witness :
    (okNext (idCb sampleCtx) = (sampleCtx, none)) ∧
    (jsGE (idCb sampleCtx).status (.num 400) = false) ∧
    ((requestProfilerRun idCb idCb idCb idCb okNext sampleCtx).events =
      [.requestStarted, .nextCalled, .requestFinished, .requestSucceeded] ∧
    ((requestProfilerRun idCb idCb idCb idCb okNext sampleCtx).events.countP isFailedEv = 0) ∧
    jsGE .undefined (.num 400) = false ∧ jsLT .undefined (.num 400) = false ∧
    jsGE (.str "no-status") (.num 400) = false ∧
    jsLT (.str "no-status") (.num 400) = false) :=
  ⟨rfl, rfl, C10_success_default idCb idCb idCb idCb okNext sampleCtx sampleCtx rfl rfl⟩

end KoaMiddleware
